import Mathlib

/-
Verification of the polymorphic entity/transaction core of a personal
finance-tracking backend.  The definitions below are a shallow embedding of
the Python source under backend/core (models.py, models_optimized.py,
views.py): Django model methods become pure Lean functions, JSON-stored
decimal amounts become rationals, mutation becomes explicit state passing.
Each definition carries a pointer to the source function it embeds.
-/

/- ===== Tag operations (Entity.add_tag / remove_tag / has_tag / set_tags,
   models.py lines 208-233).  Python normalises a tag with
   tag_name.strip().lower(); we model that with String.trim followed by
   String.toLower (the repository only uses ASCII tags). ===== -/

namespace Entity

/-- Whitespace-stripping of str.strip(), modelled on the character list of a
string: drop whitespace from both ends. -/
def stripChars (l : List Char) : List Char :=
  ((l.dropWhile Char.isWhitespace).reverse.dropWhile Char.isWhitespace).reverse

/-- Normalisation applied by every tag operation: tag.strip().lower()
(ASCII lowering, matching the repository usage). -/
def normalizeTag (s : String) : String :=
  ⟨(stripChars s.data).map Char.toLower⟩

/-- Embeds Entity.add_tag (models.py 208-215): appends the normalised tag
only when it is nonempty and not already present. -/
def add_tag (tags : List String) (tagName : String) : List String :=
  let n := normalizeTag tagName
  if n ≠ "" ∧ n ∉ tags then tags ++ [n] else tags

/-- Embeds Entity.remove_tag (models.py 217-224): Python list.remove drops
the first occurrence only. -/
def remove_tag (tags : List String) (tagName : String) : List String :=
  let n := normalizeTag tagName
  if n ∈ tags then tags.erase n else tags

/-- Embeds Entity.has_tag (models.py 226-228). -/
def has_tag (tags : List String) (tagName : String) : Bool :=
  normalizeTag tagName ∈ tags

/-- Embeds Entity.set_tags (models.py 230-233): the Python list
comprehension keeps every entry whose stripped form is nonblank, normalised,
in order - with no deduplication. -/
def set_tags (tagList : List String) : List String :=
  (tagList.filter (fun t => stripChars t.data ≠ [])).map normalizeTag

end Entity

/- ===== AI credits (UserProfile.consume_credits, models.py 123-131).
   ai_credits_remaining is an IntegerField; the nested config counter
   usage.ai_credits_used_this_month is tracked alongside. ===== -/

structure UserProfile where
  ai_credits_remaining : Int
  ai_credits_used_this_month : Int
  deriving DecidableEq, Repr

/-- Embeds UserProfile.consume_credits (models.py 123-131): on sufficient
credits it decrements the remaining balance, bumps the usage counter and
returns True; otherwise it returns False without touching the profile. -/
def UserProfile.consume_credits (p : UserProfile) (amount : Int) :
    Bool × UserProfile :=
  if p.ai_credits_remaining ≥ amount then
    (true,
      { ai_credits_remaining := p.ai_credits_remaining - amount,
        ai_credits_used_this_month := p.ai_credits_used_this_month + amount })
  else
    (false, p)

/- ===== Calendar arithmetic for recurring schedules.  Dates are modelled
   as day numbers (days since a fixed epoch), so that the Python
   timedelta(days=k) becomes addition of k.  dayNumber converts a civil
   (year, month, day) date to its day number; it is the standard proleptic
   Gregorian day count, valid for year at least 1. ===== -/

/-- Leap-year rule of the Gregorian calendar. -/
def isLeap (y : Nat) : Bool :=
  (y % 4 == 0 && y % 100 != 0) || y % 400 == 0

/-- Days in the given month of the given year. -/
def daysInMonth (y m : Nat) : Nat :=
  if m = 2 then (if isLeap y then 29 else 28)
  else if m = 4 ∨ m = 6 ∨ m = 9 ∨ m = 11 then 30
  else 31

/-- Cumulative day count before month m in a non-leap year. -/
def monthOffset : Nat → Nat
  | 1 => 0 | 2 => 31 | 3 => 59 | 4 => 90 | 5 => 120 | 6 => 151
  | 7 => 181 | 8 => 212 | 9 => 243 | 10 => 273 | 11 => 304 | 12 => 334
  | _ => 0

/-- Day number of a civil date (proleptic Gregorian, year at least 1). -/
def dayNumber (y m d : Nat) : Nat :=
  365 * (y - 1) + (y - 1) / 4 - (y - 1) / 100 + (y - 1) / 400 +
    monthOffset m + (if 2 < m ∧ isLeap y then 1 else 0) + d

/-- Modelled from the spec: calendar-month arithmetic for monthly recurrence
(advance the month, clamping the day to the length of the target month),
which the spec demands instead of a fixed 30-day delta.  No function in the
repository implements this; it exists only to state the claimed behaviour. -/
def calendar_add_month : Nat × Nat × Nat → Nat × Nat × Nat
  | (y, m, d) =>
    if m = 12 then (y + 1, 1, min d (daysInMonth (y + 1) 1))
    else (y, m + 1, min d (daysInMonth y (m + 1)))

/- ===== Recurring templates, 8-model version (models.py Transaction).
   A template is a Transaction row with status template and
   transaction_type recurring; frequency / next_execution / original_type
   live in the transaction_data JSON payload (None when absent). ===== -/

structure RecurringTemplate where
  status : String
  transaction_type : String
  is_active : Bool
  amount : ℚ
  description : String
  original_type : Option String
  frequency : Option String
  next_execution : Option Nat
  deriving DecidableEq, Repr

/-- A transaction row created by executing a template. -/
structure CreatedTransaction where
  transaction_type : String
  amount : ℚ
  description : String
  date : Nat
  status : String
  deriving DecidableEq, Repr

namespace Transaction

/-- Embeds Transaction.update_next_execution (models.py 364-385): reads the
frequency (default monthly when the key is absent) and advances the stored
next_execution by a fixed day delta - 1 for daily, 7 for weekly, 30 for
monthly (the source comment says Approximate), 365 for yearly; any other
frequency leaves the date unchanged, and a template with no stored
next_execution is left untouched. -/
def update_next_execution (t : RecurringTemplate) : RecurringTemplate :=
  if t.transaction_type ≠ "recurring" then t
  else
    match t.next_execution with
    | none => t
    | some d =>
      let f := t.frequency.getD "monthly"
      let d' :=
        if f = "daily" then d + 1
        else if f = "weekly" then d + 7
        else if f = "monthly" then d + 30
        else if f = "yearly" then d + 365
        else d
      { t with next_execution := some d' }

/-- Embeds Transaction.execute_recurring (models.py 336-362): when the row
is not a template of type recurring it silently returns None (no exception,
nothing created, template unchanged); otherwise it creates a new transaction
with default status active, dated today, and advances the schedule.  The
is_active flag is never consulted. -/
def execute_recurring (t : RecurringTemplate) (today : Nat) :
    Option (CreatedTransaction × RecurringTemplate) :=
  if t.status ≠ "template" ∨ t.transaction_type ≠ "recurring" then none
  else
    some
      ({ transaction_type := t.original_type.getD "expense",
         amount := t.amount,
         description := "Auto: " ++ t.description,
         date := today,
         status := "active" },
       update_next_execution t)

end Transaction

/- ===== Recurring templates, 3-super-model version
   (models_optimized.py Transaction, lines 272-365). ===== -/

structure OptTemplate where
  is_template : Bool
  is_active_template : Bool
  transaction_type : String
  amount : ℚ
  description : String
  frequency : Option String
  frequency_interval : Nat
  next_execution_date : Option Nat
  start_date : Option Nat
  end_date : Option Nat
  max_executions : Option Nat
  total_executions : Nat
  deriving DecidableEq, Repr

namespace OptTransaction

/-- Embeds Transaction.update_next_execution_date (models_optimized.py
332-365): fixed day deltas scaled by frequency_interval - 30 per month
(the source comment says approximate), 90 per quarter, 365 per year - then
the end-date / max-executions stop conditions.  Python truthiness: a None or
empty frequency returns immediately, and max_executions of 0 never stops. -/
def update_next_execution_date (t : OptTemplate) (today : Nat) : OptTemplate :=
  let fOk : Bool :=
    match t.frequency with
    | none => false
    | some s => decide (s ≠ "")
  if ¬ t.is_template ∨ ¬ fOk then t
  else
    let current := t.next_execution_date.getD (t.start_date.getD today)
    let f := t.frequency.getD ""
    let next? : Option Nat :=
      if f = "daily" then some (current + t.frequency_interval)
      else if f = "weekly" then some (current + 7 * t.frequency_interval)
      else if f = "biweekly" then some (current + 14 * t.frequency_interval)
      else if f = "monthly" then some (current + 30 * t.frequency_interval)
      else if f = "quarterly" then some (current + 90 * t.frequency_interval)
      else if f = "yearly" then some (current + 365 * t.frequency_interval)
      else none
    match next? with
    | none => t
    | some next =>
      let endStop : Bool :=
        match t.end_date with
        | some e => decide (next > e)
        | none => false
      let maxStop : Bool :=
        match t.max_executions with
        | some m => decide (m ≠ 0 ∧ t.total_executions ≥ m)
        | none => false
      if endStop then
        { t with is_active_template := false, next_execution_date := none }
      else if maxStop then
        { t with is_active_template := false, next_execution_date := none }
      else
        { t with next_execution_date := some next }

/-- Embeds Transaction.execute_recurring_transaction (models_optimized.py
272-330): raises ValueError when the row is not an active template;
otherwise creates a standard transaction dated today and advances the
schedule. -/
def execute_recurring_transaction (t : OptTemplate) (today : Nat) :
    Except String (CreatedTransaction × OptTemplate) :=
  if ¬ t.is_template ∨ ¬ t.is_active_template then
    Except.error "This is not an active recurring transaction template"
  else
    Except.ok
      ({ transaction_type := t.transaction_type,
         amount := t.amount,
         description := t.description,
         date := today,
         status := "active" },
       update_next_execution_date t today)

end OptTransaction

/- ===== Joint accounts and the transaction ledger (models.py 1161-1381,
   views.py 286-395).  An account entity stores its balance and joint-owner
   data inside its JSON payload; a Transaction row references it as
   primary_entity.  Amounts are stored as nonneg-by-convention decimals with
   the sign carried by transaction_type. ===== -/

structure JointAccount where
  balance : ℚ
  is_joint : Bool
  joint_owners : List Nat
  primary_owner : Nat
  /-- permissions.require_approval_over; none models the float inf default. -/
  require_approval_over : Option ℚ
  deriving DecidableEq, Repr

structure JointTxn where
  transaction_type : String
  amount : ℚ
  status : String
  initiated_by : Nat
  needs_approval : Bool
  approved_by : List Nat
  deriving DecidableEq, Repr

/-- The balance application shared by add_joint_transaction (models.py
1272-1279) and approve_joint_transaction (models.py 1346-1352): an expense
subtracts the amount from the stored balance, any other type adds it. -/
def apply_to_balance (acct : JointAccount) (t : JointTxn) : JointAccount :=
  { acct with
      balance :=
        if t.transaction_type = "expense" then acct.balance - t.amount
        else acct.balance + t.amount }

/-- needs_approval in add_joint_transaction (models.py 1250-1252): the
amount magnitude strictly exceeds permissions.require_approval_over, whose
default float inf (none here) means approval is never needed. -/
def needs_approval_for (acct : JointAccount) (amount : ℚ) : Bool :=
  match acct.require_approval_over with
  | none => false
  | some thr => decide (|amount| > thr)

/-- Embeds add_joint_transaction (models.py 1237-1312): permission checks,
then a transaction that is pending when the amount exceeds the approval
threshold (initially approved by nobody) and active otherwise (auto-approved
by the initiator, balance applied immediately). -/
def add_joint_transaction (acct : JointAccount) (userId : Nat) (amount : ℚ)
    (txnType : String) : Except String (JointTxn × JointAccount) :=
  if ¬ acct.is_joint then Except.error "This is not a joint account"
  else if ¬ (userId ∈ acct.joint_owners ∨ userId = acct.primary_owner) then
    Except.error "User does not have access to this joint account"
  else if needs_approval_for acct amount then
    Except.ok
      ({ transaction_type := txnType, amount := amount, status := "pending",
         initiated_by := userId, needs_approval := true, approved_by := [] },
       acct)
  else
    Except.ok
      ({ transaction_type := txnType, amount := amount, status := "active",
         initiated_by := userId, needs_approval := false,
         approved_by := [userId] },
       apply_to_balance acct
         { transaction_type := txnType, amount := amount, status := "active",
           initiated_by := userId, needs_approval := false,
           approved_by := [userId] })

/-- Embeds approve_joint_transaction (models.py 1314-1381): returns False
(changing nothing) unless the transaction is pending, needs approval, the
approver co-owns the account and has not approved yet; records the approval,
and once the approvers distinct from the initiator number at least one,
activates the transaction and applies its amount to the account balance. -/
def approve_joint_transaction (t : JointTxn) (acct : JointAccount)
    (approver : Nat) : Bool × JointTxn × JointAccount :=
  if t.status ≠ "pending" then (false, t, acct)
  else if ¬ t.needs_approval then (false, t, acct)
  else if ¬ (approver ∈ acct.joint_owners ∨ approver = acct.primary_owner) then
    (false, t, acct)
  else if approver ∈ t.approved_by then (false, t, acct)
  else if ((t.approved_by ++ [approver]).filter
      (fun uid => uid ≠ t.initiated_by)).length ≥ 1 then
    (true,
     { t with status := "active", approved_by := t.approved_by ++ [approver] },
     apply_to_balance acct
       { t with status := "active", approved_by := t.approved_by ++ [approver] })
  else
    (true, { t with approved_by := t.approved_by ++ [approver] }, acct)

/-- One account together with the transaction rows that reference it as
primary_entity. -/
structure LedgerState where
  account : JointAccount
  txns : List JointTxn
  deriving DecidableEq, Repr

/-- Embeds the standard creation path (TransactionViewSet / upload_csv,
views.py 224-283): a new row with default status active is inserted and the
stored account balance is not touched - no balance maintenance exists on
this path. -/
def create_standard_transaction (s : LedgerState) (userId : Nat) (amount : ℚ)
    (txnType : String) : LedgerState :=
  { s with
      txns := s.txns ++
        [{ transaction_type := txnType, amount := amount, status := "active",
           initiated_by := userId, needs_approval := false, approved_by := [] }] }

/-- add_joint_transaction lifted to the ledger state (a raised error leaves
the state unchanged). -/
def add_joint_transaction_state (s : LedgerState) (userId : Nat) (amount : ℚ)
    (txnType : String) : LedgerState :=
  match add_joint_transaction s.account userId amount txnType with
  | Except.error _ => s
  | Except.ok (t, acct) => { account := acct, txns := s.txns ++ [t] }

/-- approve_joint_transaction lifted to the ledger state: the row at the
given index is approved; on a False return the source saves nothing. -/
def approve_at (s : LedgerState) (idx : Nat) (approver : Nat) : LedgerState :=
  match s.txns[idx]? with
  | none => s
  | some t =>
    if (approve_joint_transaction t s.account approver).1 then
      { account := (approve_joint_transaction t s.account approver).2.2,
        txns := s.txns.set idx (approve_joint_transaction t s.account approver).2.1 }
    else s

/-- Embeds TransactionViewSet.bulk_update restricted to a status update on
one row (views.py 346-380): the status field is overwritten; no balance
adjustment or processed-flag logic exists. -/
def bulk_update_status (s : LedgerState) (idx : Nat) (newStatus : String) :
    LedgerState :=
  match s.txns[idx]? with
  | none => s
  | some t => { s with txns := s.txns.set idx { t with status := newStatus } }

/-- Cancelling an event is a bulk_update that writes status cancelled. -/
def cancel (s : LedgerState) (idx : Nat) : LedgerState :=
  bulk_update_status s idx "cancelled"

/-- Modelled from the spec: the replay balance of an account is the sum of
the signed amounts of all active events having it as primary entity
(expenses and transfers negative, everything else positive), plus transfer
adjustments on accounts that are secondary - our state tracks the account
that is primary for every recorded row, so the secondary adjustment term is
empty here.  No replay computation exists in the source; accounts_summary
(views.py 101-125) reads the stored balance field directly. -/
def spec_replay_balance (txns : List JointTxn) : ℚ :=
  ((txns.filter (fun t => t.status = "active")).map
    (fun t =>
      if t.transaction_type = "expense" ∨ t.transaction_type = "transfer" then
        -t.amount
      else t.amount)).sum

/-- The signing rule the code actually applies when activating a joint
transaction: expense subtracts, any other type (transfer included) adds. -/
def joint_signed (t : JointTxn) : ℚ :=
  if t.transaction_type = "expense" then -t.amount else t.amount

/-- Replay balance under the signing rule of the code. -/
def joint_replay_balance (txns : List JointTxn) : ℚ :=
  ((txns.filter (fun t => t.status = "active")).map joint_signed).sum

/-- The joint-account write operations of models.py 1237-1381. -/
inductive JointOp where
  | record (userId : Nat) (amount : ℚ) (txnType : String)
  | approve (idx : Nat) (userId : Nat)
  deriving DecidableEq, Repr

/-- Interpreter for one joint-account operation. -/
def JointOp.step (s : LedgerState) : JointOp → LedgerState
  | JointOp.record u a ty => add_joint_transaction_state s u a ty
  | JointOp.approve i u => approve_at s i u

/-- Interpreter for a sequence of joint-account operations. -/
def runJointOps (s : LedgerState) (ops : List JointOp) : LedgerState :=
  ops.foldl JointOp.step s

/-- Per-row contribution to the replay balance of the code. -/
def activeContrib (t : JointTxn) : ℚ :=
  if t.status = "active" then joint_signed t else 0

/- ===== Investments (models_optimized.py Investment, lines 372-481).
   InvestmentTransaction rows carry a nullable quantity (Django Sum skips
   NULL values, modelled by Option with getD 0) and an amount. ===== -/

structure InvestmentTxn where
  transaction_type : String
  status : String
  quantity : Option ℚ
  amount : ℚ
  deriving DecidableEq, Repr

structure Investment where
  current_price : ℚ
  transactions : List InvestmentTxn
  deriving DecidableEq, Repr

namespace Investment

/-- Embeds Investment.current_quantity (models_optimized.py 436-449): sum of
quantities over active buy rows minus active sell rows. -/
def current_quantity (inv : Investment) : ℚ :=
  ((inv.transactions.filter
      (fun t => t.transaction_type = "buy" ∧ t.status = "active")).map
    (fun t => t.quantity.getD 0)).sum -
  ((inv.transactions.filter
      (fun t => t.transaction_type = "sell" ∧ t.status = "active")).map
    (fun t => t.quantity.getD 0)).sum

/-- Embeds Investment.current_value (models_optimized.py 451-454). -/
def current_value (inv : Investment) : ℚ :=
  inv.current_quantity * inv.current_price

/-- Embeds Investment.total_invested (models_optimized.py 456-469): active
buy amounts minus active sell amounts. -/
def total_invested (inv : Investment) : ℚ :=
  ((inv.transactions.filter
      (fun t => t.transaction_type = "buy" ∧ t.status = "active")).map
    (fun t => t.amount)).sum -
  ((inv.transactions.filter
      (fun t => t.transaction_type = "sell" ∧ t.status = "active")).map
    (fun t => t.amount)).sum

/-- Embeds Investment.total_gain_loss (models_optimized.py 471-474). -/
def total_gain_loss (inv : Investment) : ℚ :=
  inv.current_value - inv.total_invested

end Investment

/-- Net quantity written the way the spec phrases it: one signed pass over
all rows, counting active buys positively and active sells negatively. -/
def spec_net_quantity (inv : Investment) : ℚ :=
  (inv.transactions.map
    (fun t =>
      if t.status = "active" then
        (if t.transaction_type = "buy" then t.quantity.getD 0
         else if t.transaction_type = "sell" then -(t.quantity.getD 0)
         else 0)
      else 0)).sum

/-- Net cost basis written the way the spec phrases it. -/
def spec_net_invested (inv : Investment) : ℚ :=
  (inv.transactions.map
    (fun t =>
      if t.status = "active" then
        (if t.transaction_type = "buy" then t.amount
         else if t.transaction_type = "sell" then -t.amount
         else 0)
      else 0)).sum


/- ===== Plans and addons (models_optimized.py Plan / UserPlanAssignment,
   lines 625-743; the same cost rule appears in models.py
   Plan.calculate_total_cost, lines 452-465). ===== -/

structure OptPlan where
  price : ℚ
  billing_cycle : String
  ai_credits_per_month : Int
  max_transactions_per_month : Int
  max_accounts : Int
  storage_gb : ℚ
  deriving DecidableEq, Repr

structure UserAddon where
  addon : OptPlan
  quantity : Nat
  is_active : Bool
  deriving DecidableEq, Repr

structure EffectiveLimits where
  ai_credits : Int
  transactions : Int
  accounts : Int
  storage_gb : ℚ
  deriving DecidableEq, Repr

/-- Loop body of UserPlanAssignment.calculate_totals (models_optimized.py
698-717): a monthly addon adds price times quantity to the cost, a yearly
addon adds a twelfth of that, any other billing cycle (one_time) adds
nothing; every limit field always adds value times quantity. -/
def addon_step (acc : ℚ × EffectiveLimits) (ua : UserAddon) :
    ℚ × EffectiveLimits :=
  ((if ua.addon.billing_cycle = "monthly" then
      acc.1 + ua.addon.price * (ua.quantity : ℚ)
    else if ua.addon.billing_cycle = "yearly" then
      acc.1 + ua.addon.price * (ua.quantity : ℚ) / 12
    else acc.1),
   { ai_credits :=
       acc.2.ai_credits + ua.addon.ai_credits_per_month * (ua.quantity : ℤ),
     transactions :=
       acc.2.transactions +
         ua.addon.max_transactions_per_month * (ua.quantity : ℤ),
     accounts := acc.2.accounts + ua.addon.max_accounts * (ua.quantity : ℤ),
     storage_gb :=
       acc.2.storage_gb + ua.addon.storage_gb * (ua.quantity : ℚ) })

/-- Embeds UserPlanAssignment.calculate_totals (models_optimized.py
687-732): start from the base plan price and limits and fold the loop body
over the active addons. -/
def calculate_totals (base : OptPlan) (addons : List UserAddon) :
    ℚ × EffectiveLimits :=
  (addons.filter (fun ua => ua.is_active)).foldl addon_step
    (base.price,
     { ai_credits := base.ai_credits_per_month,
       transactions := base.max_transactions_per_month,
       accounts := base.max_accounts,
       storage_gb := base.storage_gb })

/-- Modelled from the claim: effective cost = base price plus, over all
active addons, value times quantity, with only yearly-billed addons divided
by 12 and every other cycle contributing price times quantity unchanged. -/
def claim_effective_cost (base : OptPlan) (addons : List UserAddon) : ℚ :=
  base.price +
    ((addons.filter (fun ua => ua.is_active)).map
      (fun ua =>
        if ua.addon.billing_cycle = "yearly" then
          ua.addon.price * (ua.quantity : ℚ) / 12
        else ua.addon.price * (ua.quantity : ℚ))).sum

/-- Cost contribution of one addon in the code: zero unless billed monthly
or yearly. -/
def addon_cost_contrib (ua : UserAddon) : ℚ :=
  if ua.addon.billing_cycle = "monthly" then
    ua.addon.price * (ua.quantity : ℚ)
  else if ua.addon.billing_cycle = "yearly" then
    ua.addon.price * (ua.quantity : ℚ) / 12
  else 0


/- ===== Entity uniqueness (Entity.Meta, models.py 172-179). ===== -/

structure EntityRow where
  user : Nat
  entity_type : String
  name : String
  code : String
  deriving DecidableEq, Repr

/-- The column triple of the unique_together constraint. -/
def entityKey (e : EntityRow) : Nat × String × String :=
  (e.user, e.entity_type, e.code)

/-- Embeds unique_together = [user, entity_type, code] (models.py 179): the
table satisfies the constraint iff no two rows share the key triple - the
constraint applies to every value of code, the empty string included (code
is a blank-allowed CharField stored as an empty string, not NULL). -/
def unique_together_ok (rows : List EntityRow) : Bool :=
  (rows.map entityKey).Nodup

/-- Concrete joint account used in counterexamples: user 1 is primary
owner, user 2 co-owns, balance 0, no approval threshold. -/
def demoAccount : JointAccount :=
  { balance := 0, is_joint := true, joint_owners := [2], primary_owner := 1,
    require_approval_over := none }

/-- Empty ledger over the demo account. -/
def demoState : LedgerState := { account := demoAccount, txns := [] }

/- ===================== Helper lemmas and claim theorems ===================== -/

theorem joint_replay_eq_sum_contrib (l : List JointTxn) :
    joint_replay_balance l = (l.map activeContrib).sum := by
  induction l with
  | nil => rfl
  | cons t ts ih =>
    unfold joint_replay_balance at *
    by_cases h : t.status = "active"
    · simp [List.filter_cons, h, ih, activeContrib, joint_signed]
    · simp [List.filter_cons, h, ih, activeContrib]

theorem apply_to_balance_eq (acct : JointAccount) (t : JointTxn) :
    (apply_to_balance acct t).balance = acct.balance + joint_signed t := by
  unfold apply_to_balance joint_signed
  by_cases h : t.transaction_type = "expense" <;> simp [h] <;> ring

theorem contrib_sum_set (l : List JointTxn) (i : Nat) (t t' : JointTxn)
    (h : l[i]? = some t) :
    ((l.set i t').map activeContrib).sum =
      (l.map activeContrib).sum - activeContrib t + activeContrib t' := by
  obtain ⟨hlt, hget⟩ := List.getElem?_eq_some.mp h
  rw [List.map_set, List.sum_set', dif_pos (by simpa using hlt)]
  rw [List.getElem_map, hget]
  ring

theorem step_preserves_replay (s : LedgerState) (op : JointOp) :
    (JointOp.step s op).account.balance -
        joint_replay_balance (JointOp.step s op).txns =
      s.account.balance - joint_replay_balance s.txns := by
  cases op with
  | record u a ty =>
    simp only [JointOp.step]
    unfold add_joint_transaction_state add_joint_transaction
    by_cases h1 : s.account.is_joint
    · rw [if_neg (by simp [h1])]
      by_cases h2 : u ∈ s.account.joint_owners ∨ u = s.account.primary_owner
      · rw [if_neg (by simp [h2])]
        by_cases hn : needs_approval_for s.account a
        · rw [if_pos hn]
          show s.account.balance -
              joint_replay_balance (s.txns ++
                [{ transaction_type := ty, amount := a, status := "pending",
                   initiated_by := u, needs_approval := true,
                   approved_by := [] }]) =
            s.account.balance - joint_replay_balance s.txns
          rw [joint_replay_eq_sum_contrib, joint_replay_eq_sum_contrib,
            List.map_append, List.sum_append]
          have hc : activeContrib
              { transaction_type := ty, amount := a, status := "pending",
                initiated_by := u, needs_approval := true,
                approved_by := [] } = 0 := rfl
          simp only [List.map_cons, List.map_nil, List.sum_cons, List.sum_nil, hc]
          ring
        · rw [if_neg hn]
          show (apply_to_balance s.account
              { transaction_type := ty, amount := a, status := "active",
                initiated_by := u, needs_approval := false,
                approved_by := [u] }).balance -
              joint_replay_balance (s.txns ++
                [{ transaction_type := ty, amount := a, status := "active",
                   initiated_by := u, needs_approval := false,
                   approved_by := [u] }]) =
            s.account.balance - joint_replay_balance s.txns
          rw [apply_to_balance_eq, joint_replay_eq_sum_contrib,
            joint_replay_eq_sum_contrib, List.map_append, List.sum_append]
          have hc : activeContrib
              { transaction_type := ty, amount := a, status := "active",
                initiated_by := u, needs_approval := false,
                approved_by := [u] } =
              joint_signed
                { transaction_type := ty, amount := a, status := "active",
                  initiated_by := u, needs_approval := false,
                  approved_by := [u] } := rfl
          simp only [List.map_cons, List.map_nil, List.sum_cons, List.sum_nil, hc]
          ring
      · rw [if_pos (by simp [h2])]
    · rw [if_pos (by simp [h1])]
  | approve i u =>
    simp only [JointOp.step]
    unfold approve_at
    cases h : s.txns[i]? with
    | none => rfl
    | some t =>
      dsimp only
      by_cases c1 : t.status ≠ "pending"
      · have hred : approve_joint_transaction t s.account u =
            (false, t, s.account) := by
          unfold approve_joint_transaction
          rw [if_pos c1]
        rw [hred]
        rfl
      · have hpend : t.status = "pending" := not_not.mp c1
        have hct : activeContrib t = 0 := by
          unfold activeContrib
          rw [hpend]
          rfl
        by_cases c2 : t.needs_approval
        · by_cases c3 : u ∈ s.account.joint_owners ∨ u = s.account.primary_owner
          · by_cases c4 : u ∈ t.approved_by
            · have hred : approve_joint_transaction t s.account u =
                  (false, t, s.account) := by
                unfold approve_joint_transaction
                rw [if_neg c1, if_neg (by simp [c2]), if_neg (by simp [c3]),
                  if_pos c4]
              rw [hred]
              rfl
            · by_cases c5 :
                  ((t.approved_by ++ [u]).filter
                    (fun uid => uid ≠ t.initiated_by)).length ≥ 1
              · have hred : approve_joint_transaction t s.account u =
                    (true,
                     { t with status := "active",
                              approved_by := t.approved_by ++ [u] },
                     apply_to_balance s.account
                       { t with status := "active",
                                approved_by := t.approved_by ++ [u] }) := by
                  unfold approve_joint_transaction
                  rw [if_neg c1, if_neg (by simp [c2]), if_neg (by simp [c3]),
                    if_neg c4, if_pos c5]
                rw [hred]
                show (apply_to_balance s.account
                    { t with status := "active",
                             approved_by := t.approved_by ++ [u] }).balance -
                    joint_replay_balance (s.txns.set i
                      { t with status := "active",
                               approved_by := t.approved_by ++ [u] }) =
                  s.account.balance - joint_replay_balance s.txns
                rw [apply_to_balance_eq, joint_replay_eq_sum_contrib,
                  joint_replay_eq_sum_contrib,
                  contrib_sum_set s.txns i t _ h, hct]
                have h1 : activeContrib
                    { t with status := "active",
                             approved_by := t.approved_by ++ [u] } =
                    joint_signed t := rfl
                have h2 : joint_signed
                    { t with status := "active",
                             approved_by := t.approved_by ++ [u] } =
                    joint_signed t := rfl
                rw [h1, h2]
                ring
              · have hred : approve_joint_transaction t s.account u =
                    (true, { t with approved_by := t.approved_by ++ [u] },
                     s.account) := by
                  unfold approve_joint_transaction
                  rw [if_neg c1, if_neg (by simp [c2]), if_neg (by simp [c3]),
                    if_neg c4, if_neg c5]
                rw [hred]
                show s.account.balance -
                    joint_replay_balance (s.txns.set i
                      { t with approved_by := t.approved_by ++ [u] }) =
                  s.account.balance - joint_replay_balance s.txns
                rw [joint_replay_eq_sum_contrib, joint_replay_eq_sum_contrib,
                  contrib_sum_set s.txns i t _ h, hct]
                have h1 : activeContrib
                    { t with approved_by := t.approved_by ++ [u] } =
                    activeContrib t := rfl
                rw [h1, hct]
                ring
          · have hred : approve_joint_transaction t s.account u =
                (false, t, s.account) := by
              unfold approve_joint_transaction
              rw [if_neg c1, if_neg (by simp [c2]), if_pos (by simp [c3])]
            rw [hred]
            rfl
        · have hred : approve_joint_transaction t s.account u =
              (false, t, s.account) := by
            unfold approve_joint_transaction
            rw [if_neg c1, if_pos (by simp [c2])]
          rw [hred]
          rfl

/-- C5 counterexample: the claim says set_tags (and every tag operation)
leaves no duplicates and that set_tags on a, a, B yields exactly a, b; the
source keeps both copies of a, yielding a, a, b. -/
theorem c5_counterexample :
    Entity.set_tags ["a", "a", "B"] = ["a", "a", "b"] ∧
      Entity.set_tags ["a", "a", "B"] ≠ ["a", "b"] := by
  constructor
  · decide
  · decide

/-- C5 amended: every tag operation stores normalised (trimmed, lower-cased)
strings; add_tag is deduplicating, so it preserves duplicate-freedom, and
add_tag of Food makes has_tag of food true; but set_tags only normalises and
drops blanks without deduplicating, so set_tags on a, a, B yields a, a, b. -/
theorem c5_amended (tags : List String) (n x : String)
    (hnd : tags.Nodup) (hx : x ∈ Entity.set_tags tags) :
    (Entity.add_tag tags n).Nodup ∧
      (∃ t ∈ tags, x = Entity.normalizeTag t) ∧
      Entity.has_tag (Entity.add_tag [] "Food") "food" = true ∧
      Entity.set_tags ["a", "a", "B"] = ["a", "a", "b"] := by
  refine ⟨?_, ?_, by decide, by decide⟩
  · unfold Entity.add_tag
    by_cases h : Entity.normalizeTag n ≠ "" ∧ Entity.normalizeTag n ∉ tags
    · simp only [if_pos h]
      rw [List.nodup_append]
      refine ⟨hnd, List.nodup_singleton _, ?_⟩
      intro a ha hb
      rcases List.mem_singleton.mp hb with rfl
      exact h.2 ha
    · simpa [if_neg h] using hnd
  · unfold Entity.set_tags at hx
    rcases List.mem_map.mp hx with ⟨t, ht, rfl⟩
    exact ⟨t, (List.mem_filter.mp ht).1, rfl⟩

/-- C5 amended, witness at concrete inputs. -/
theorem c5_amended_witness :
    (Entity.add_tag ["a"] "B").Nodup ∧
      (∃ t ∈ ["a"], "a" = Entity.normalizeTag t) ∧
      Entity.has_tag (Entity.add_tag [] "Food") "food" = true ∧
      Entity.set_tags ["a", "a", "B"] = ["a", "a", "b"] :=
  c5_amended ["a"] "B" "a" (by decide) (by decide)

/-- C10: for nonnegative amounts, consume_credits succeeds exactly when the
remaining credits cover the amount, in which case it decreases the balance by
exactly that amount and the result stays nonnegative; otherwise it returns
false and leaves the profile completely unchanged. -/
theorem c10_consume_credits (p : UserProfile) (a : Int) (ha : 0 ≤ a) :
    (a ≤ p.ai_credits_remaining →
        (p.consume_credits a).1 = true ∧
        (p.consume_credits a).2.ai_credits_remaining =
          p.ai_credits_remaining - a ∧
        0 ≤ (p.consume_credits a).2.ai_credits_remaining) ∧
      (p.ai_credits_remaining < a →
        p.consume_credits a = (false, p)) := by
  unfold UserProfile.consume_credits
  constructor
  · intro hle
    rw [if_pos (by omega : p.ai_credits_remaining ≥ a)]
    refine ⟨rfl, rfl, ?_⟩
    show 0 ≤ p.ai_credits_remaining - a
    omega
  · intro hlt
    rw [if_neg (by omega : ¬ p.ai_credits_remaining ≥ a)]

/-- C10 witness at a concrete profile. -/
theorem c10_consume_credits_witness :
    (3 ≤ (100 : Int) →
        ((UserProfile.mk 100 0).consume_credits 3).1 = true ∧
        ((UserProfile.mk 100 0).consume_credits 3).2.ai_credits_remaining =
          100 - 3 ∧
        0 ≤ ((UserProfile.mk 100 0).consume_credits 3).2.ai_credits_remaining) ∧
      ((100 : Int) < 3 →
        (UserProfile.mk 100 0).consume_credits 3 = (false, UserProfile.mk 100 0)) :=
  c10_consume_credits (UserProfile.mk 100 0) 3 (by decide)

/-- C2 counterexample: the claim says the monthly schedule follows
calendar-month arithmetic (2024-01-31 then 2024-02-29); the source adds a
fixed 30 days, so from 2024-01-31 the next execution lands on 2024-03-01,
already diverging from the calendar sequence after one step. -/
theorem c2_counterexample :
    (Transaction.update_next_execution
        { status := "template", transaction_type := "recurring",
          is_active := true, amount := 100, description := "rent",
          original_type := none, frequency := some "monthly",
          next_execution := some (dayNumber 2024 1 31) }).next_execution =
      some (dayNumber 2024 3 1) ∧
    calendar_add_month (2024, 1, 31) = (2024, 2, 29) ∧
    dayNumber 2024 3 1 ≠ dayNumber 2024 2 29 := by
  refine ⟨by decide, by decide, by decide⟩

/-- C2 amended: monthly recurrence advances the next-execution date by a
fixed 30-day delta - plus 30 days per execution in models.py, and plus
30 times frequency_interval in models_optimized.py when no stop condition
fires - not by calendar-month arithmetic, so dates drift from the calendar
sequence (2024-01-31 steps to 2024-03-01, not 2024-02-29). -/
theorem c2_amended (t : RecurringTemplate) (o : OptTemplate) (d e today : Nat)
    (h1 : t.transaction_type = "recurring")
    (h2 : t.frequency.getD "monthly" = "monthly")
    (h3 : t.next_execution = some d)
    (h4 : o.is_template = true)
    (h5 : o.frequency = some "monthly")
    (h6 : o.next_execution_date = some e)
    (h7 : o.end_date = none)
    (h8 : o.max_executions = none) :
    (Transaction.update_next_execution t).next_execution = some (d + 30) ∧
      (OptTransaction.update_next_execution_date o today).next_execution_date =
        some (e + 30 * o.frequency_interval) := by
  constructor
  · unfold Transaction.update_next_execution
    rw [if_neg (by simp [h1]), h3, h2]
    rfl
  · unfold OptTransaction.update_next_execution_date
    rw [h5, h6, h7, h8, h4]
    rfl

/-- C2 amended, witness at the concrete 2024-01-31 template. -/
theorem c2_amended_witness :
    (Transaction.update_next_execution
        { status := "template", transaction_type := "recurring",
          is_active := true, amount := 100, description := "rent",
          original_type := none, frequency := some "monthly",
          next_execution := some (dayNumber 2024 1 31) }).next_execution =
      some (dayNumber 2024 1 31 + 30) ∧
    (OptTransaction.update_next_execution_date
        { is_template := true, is_active_template := true,
          transaction_type := "expense", amount := 100,
          description := "rent", frequency := some "monthly",
          frequency_interval := 1,
          next_execution_date := some (dayNumber 2024 1 31),
          start_date := none, end_date := none, max_executions := none,
          total_executions := 0 } 0).next_execution_date =
      some (dayNumber 2024 1 31 + 30 * 1) :=
  c2_amended
    { status := "template", transaction_type := "recurring",
      is_active := true, amount := 100, description := "rent",
      original_type := none, frequency := some "monthly",
      next_execution := some (dayNumber 2024 1 31) }
    { is_template := true, is_active_template := true,
      transaction_type := "expense", amount := 100,
      description := "rent", frequency := some "monthly",
      frequency_interval := 1,
      next_execution_date := some (dayNumber 2024 1 31),
      start_date := none, end_date := none, max_executions := none,
      total_executions := 0 }
    (dayNumber 2024 1 31) (dayNumber 2024 1 31) 0
    rfl rfl rfl rfl rfl rfl rfl rfl

/-- C9 counterexample: the claim says execute_template fails with a raised
StateError when the template is inactive, creating nothing; in models.py an
inactive row whose status is template and type recurring still executes and
creates a new event (the is_active flag is never consulted, and the
not-a-template case is a silent None, not a raised error). -/
theorem c9_counterexample :
    (Transaction.execute_recurring
        { status := "template", transaction_type := "recurring",
          is_active := false, amount := 100, description := "rent",
          original_type := none, frequency := some "monthly",
          next_execution := some 0 } 5).isSome = true := by
  decide

/-- C9 amended: in models.py, execute_recurring on a row whose status is not
template returns None silently (no event, template unchanged) instead of
raising; in models_optimized.py, execute_recurring_transaction does raise
(ValueError, not a StateError class) whenever the row is not an active
template, creating nothing. -/
theorem c9_amended (t : RecurringTemplate) (o : OptTemplate) (d e : Nat)
    (h1 : t.status ≠ "template") (h2 : o.is_active_template = false) :
    Transaction.execute_recurring t d = none ∧
      OptTransaction.execute_recurring_transaction o e =
        Except.error "This is not an active recurring transaction template" := by
  constructor
  · unfold Transaction.execute_recurring
    rw [if_pos (Or.inl h1)]
  · unfold OptTransaction.execute_recurring_transaction
    rw [if_pos (Or.inr (by simp [h2]))]

/-- C9 amended, witness at concrete rows. -/
theorem c9_amended_witness :
    Transaction.execute_recurring
        { status := "active", transaction_type := "recurring",
          is_active := true, amount := 1, description := "x",
          original_type := none, frequency := none,
          next_execution := none } 0 = none ∧
      OptTransaction.execute_recurring_transaction
        { is_template := true, is_active_template := false,
          transaction_type := "expense", amount := 1, description := "x",
          frequency := some "monthly", frequency_interval := 1,
          next_execution_date := none, start_date := none, end_date := none,
          max_executions := none, total_executions := 0 } 0 =
        Except.error "This is not an active recurring transaction template" :=
  c9_amended
    { status := "active", transaction_type := "recurring",
      is_active := true, amount := 1, description := "x",
      original_type := none, frequency := none, next_execution := none }
    { is_template := true, is_active_template := false,
      transaction_type := "expense", amount := 1, description := "x",
      frequency := some "monthly", frequency_interval := 1,
      next_execution_date := none, start_date := none, end_date := none,
      max_executions := none, total_executions := 0 }
    0 0 (by decide) rfl

/-- C1 counterexample: the claim says the stored balance always equals the
replay sum over active events; creating one active expense transaction of 50
through the standard path leaves the stored balance at 0 while the replay
sum is -50, because no code maintains the stored balance on that path. -/
theorem c1_counterexample :
    (create_standard_transaction demoState 1 50 "expense").account.balance = 0 ∧
      spec_replay_balance
        (create_standard_transaction demoState 1 50 "expense").txns = -50 ∧
      (create_standard_transaction demoState 1 50 "expense").account.balance ≠
        spec_replay_balance
          (create_standard_transaction demoState 1 50 "expense").txns := by
  refine ⟨rfl, ?_, ?_⟩
  · norm_num [spec_replay_balance, create_standard_transaction, demoState,
      demoAccount]
  · norm_num [spec_replay_balance, create_standard_transaction, demoState,
      demoAccount]

/-- C1 amended: restricted to the joint-transaction operations (the only
code that maintains the stored balance), incremental maintenance matches
replay: every sequence of add_joint_transaction / approve_joint_transaction
operations preserves the difference between the stored balance and the
replay sum over active rows under the signing rule of the code (expense
subtracts, any other type adds); transactions created through the standard
path and transfer adjustments to secondary accounts are never applied to the
stored balance. -/
theorem c1_amended (ops : List JointOp) (s : LedgerState) :
    (runJointOps s ops).account.balance -
        joint_replay_balance (runJointOps s ops).txns =
      s.account.balance - joint_replay_balance s.txns := by
  induction ops generalizing s with
  | nil => rfl
  | cons op rest ih =>
    have h1 : runJointOps s (op :: rest) = runJointOps (JointOp.step s op) rest :=
      rfl
    rw [h1]
    exact (ih (JointOp.step s op)).trans (step_preserves_replay s op)

/-- C3: approving a pending joint transaction that was approved by nobody -
by its own initiator only - leaves it pending with the balance unchanged;
an approver distinct from the initiator activates it and applies exactly the
transaction amount (signed by its type) to the balance; once active, any
further approval call returns False and changes nothing. -/
theorem c3_promote (t : JointTxn) (acct : JointAccount) (u v : Nat)
    (hpend : t.status = "pending") (hneed : t.needs_approval = true)
    (happ : t.approved_by = [])
    (hu : u ∈ acct.joint_owners ∨ u = acct.primary_owner)
    (hui : u = t.initiated_by)
    (hv : v ∈ acct.joint_owners ∨ v = acct.primary_owner)
    (hvi : v ≠ t.initiated_by) :
    ((approve_joint_transaction t acct u).2.1.status = "pending" ∧
      (approve_joint_transaction t acct u).2.2.balance = acct.balance) ∧
    ((approve_joint_transaction t acct v).2.1.status = "active" ∧
      (approve_joint_transaction t acct v).2.2.balance =
        (if t.transaction_type = "expense" then acct.balance - t.amount
         else acct.balance + t.amount)) ∧
    (∀ w : Nat,
      approve_joint_transaction (approve_joint_transaction t acct v).2.1
          (approve_joint_transaction t acct v).2.2 w =
        (false, (approve_joint_transaction t acct v).2.1,
          (approve_joint_transaction t acct v).2.2)) := by
  have hredu : approve_joint_transaction t acct u =
      (true, { t with approved_by := t.approved_by ++ [u] }, acct) := by
    unfold approve_joint_transaction
    rw [if_neg (by simp [hpend]), if_neg (by simp [hneed]),
      if_neg (by simp [hu]), if_neg (by simp [happ]),
      if_neg (by simp [happ, hui])]
  have hredv : approve_joint_transaction t acct v =
      (true,
       { t with status := "active", approved_by := t.approved_by ++ [v] },
       apply_to_balance acct
         { t with status := "active", approved_by := t.approved_by ++ [v] }) := by
    unfold approve_joint_transaction
    rw [if_neg (by simp [hpend]), if_neg (by simp [hneed]),
      if_neg (by simp [hv]), if_neg (by simp [happ]),
      if_pos (by simp [happ, hvi])]
  refine ⟨⟨?_, ?_⟩, ⟨?_, ?_⟩, ?_⟩
  · rw [hredu]
    exact hpend
  · rw [hredu]
  · rw [hredv]
  · rw [hredv]
    rfl
  · intro w
    rw [hredv]
    unfold approve_joint_transaction
    rw [if_pos (show ("active" : String) ≠ "pending" by decide)]

/-- C3 witness: concrete pending expense of 50 on a joint account with
balance 100, initiated by user 1; user 1 approving keeps it pending, user 2
approving activates it and debits 50. -/
theorem c3_promote_witness :
    ((approve_joint_transaction ⟨"expense", 50, "pending", 1, true, []⟩
        ⟨100, true, [1, 2], 1, some 10⟩ 1).2.1.status = "pending" ∧
      (approve_joint_transaction ⟨"expense", 50, "pending", 1, true, []⟩
        ⟨100, true, [1, 2], 1, some 10⟩ 1).2.2.balance =
        (⟨100, true, [1, 2], 1, some 10⟩ : JointAccount).balance) ∧
    ((approve_joint_transaction ⟨"expense", 50, "pending", 1, true, []⟩
        ⟨100, true, [1, 2], 1, some 10⟩ 2).2.1.status = "active" ∧
      (approve_joint_transaction ⟨"expense", 50, "pending", 1, true, []⟩
        ⟨100, true, [1, 2], 1, some 10⟩ 2).2.2.balance =
        (if (⟨"expense", 50, "pending", 1, true, []⟩ : JointTxn).transaction_type
            = "expense" then
          (⟨100, true, [1, 2], 1, some 10⟩ : JointAccount).balance -
            (⟨"expense", 50, "pending", 1, true, []⟩ : JointTxn).amount
         else
          (⟨100, true, [1, 2], 1, some 10⟩ : JointAccount).balance +
            (⟨"expense", 50, "pending", 1, true, []⟩ : JointTxn).amount)) ∧
    (∀ w : Nat,
      approve_joint_transaction
          (approve_joint_transaction ⟨"expense", 50, "pending", 1, true, []⟩
            ⟨100, true, [1, 2], 1, some 10⟩ 2).2.1
          (approve_joint_transaction ⟨"expense", 50, "pending", 1, true, []⟩
            ⟨100, true, [1, 2], 1, some 10⟩ 2).2.2 w =
        (false,
          (approve_joint_transaction ⟨"expense", 50, "pending", 1, true, []⟩
            ⟨100, true, [1, 2], 1, some 10⟩ 2).2.1,
          (approve_joint_transaction ⟨"expense", 50, "pending", 1, true, []⟩
            ⟨100, true, [1, 2], 1, some 10⟩ 2).2.2)) :=
  c3_promote ⟨"expense", 50, "pending", 1, true, []⟩
    ⟨100, true, [1, 2], 1, some 10⟩ 1 2 rfl rfl rfl (by decide) rfl
    (by decide) (by decide)

/-- C4 counterexample: the claim says cancelling an active event reverses
its applied balance effect; after an immediately-active joint expense of 50
(stored balance -50), cancelling it sets status cancelled but the stored
balance stays -50 instead of returning to 0 - no reversal code exists. -/
theorem c4_counterexample :
    (cancel (add_joint_transaction_state demoState 1 50 "expense") 0).txns.map
        (fun t => t.status) = ["cancelled"] ∧
      (cancel (add_joint_transaction_state demoState 1 50 "expense")
        0).account.balance = -50 ∧
      (cancel (add_joint_transaction_state demoState 1 50 "expense")
        0).account.balance ≠ 0 := by
  refine ⟨by decide, ?_, ?_⟩
  · norm_num [cancel, bulk_update_status, add_joint_transaction_state,
      add_joint_transaction, apply_to_balance, needs_approval_for, demoState,
      demoAccount]
  · norm_num [cancel, bulk_update_status, add_joint_transaction_state,
      add_joint_transaction, apply_to_balance, needs_approval_for, demoState,
      demoAccount]

/-- C4 amended: cancelling sets the status of the row to cancelled and is
idempotent - cancelling twice equals cancelling once - but it leaves the
account record (in particular the stored balance) entirely unchanged; the
applied balance effect of the event is never reversed. -/
theorem c4_amended (s : LedgerState) (idx : Nat) :
    cancel (cancel s idx) idx = cancel s idx ∧
      (cancel s idx).account = s.account := by
  constructor
  · unfold cancel bulk_update_status
    cases h : s.txns[idx]? with
    | none =>
      dsimp only
      rw [h]
    | some t =>
      dsimp only
      have hlt : idx < s.txns.length := (List.getElem?_eq_some.mp h).1
      have h2 : (s.txns.set idx { t with status := "cancelled" })[idx]? =
          some { t with status := "cancelled" } :=
        List.getElem?_set_eq_of_lt _ hlt
      rw [h2]
      dsimp only
      rw [List.set_set]
  · unfold cancel bulk_update_status
    cases h : s.txns[idx]? with
    | none => rfl
    | some t => rfl

theorem buy_ne_sell : ("buy" : String) ≠ "sell" := by decide

theorem sell_ne_buy : ("sell" : String) ≠ "buy" := by decide

theorem buy_sell_sum_eq (l : List InvestmentTxn) (f : InvestmentTxn → ℚ) :
    ((l.filter
        (fun t => t.transaction_type = "buy" ∧ t.status = "active")).map f).sum -
      ((l.filter
        (fun t => t.transaction_type = "sell" ∧ t.status = "active")).map f).sum =
    (l.map
      (fun t =>
        if t.status = "active" then
          (if t.transaction_type = "buy" then f t
           else if t.transaction_type = "sell" then -(f t)
           else 0)
        else 0)).sum := by
  induction l with
  | nil => simp
  | cons t ts ih =>
    simp only [Bool.decide_and] at ih ⊢
    by_cases hs : t.status = "active"
    · by_cases hb : t.transaction_type = "buy"
      · simp [List.filter_cons, hb, hs, buy_ne_sell]
        linarith [ih]
      · by_cases hsell : t.transaction_type = "sell"
        · simp [List.filter_cons, hb, hs, hsell, sell_ne_buy]
          linarith [ih]
        · simp [List.filter_cons, hb, hs, hsell]
          linarith [ih]
    · simp [List.filter_cons, hs]
      linarith [ih]

/-- C6: for every investment, the current value is the net active quantity
(buys minus sells) times the current price, and the unrealized gain/loss is
the current value minus the net cost basis over active rows; one active buy
of quantity 5 at price 10 gives value 50, invested 50, gain 0. -/
theorem c6_investment (inv : Investment) :
    inv.current_value = spec_net_quantity inv * inv.current_price ∧
      inv.total_gain_loss = inv.current_value - spec_net_invested inv ∧
      (Investment.mk 10 [⟨"buy", "active", some 5, 50⟩]).current_value = 50 ∧
      (Investment.mk 10 [⟨"buy", "active", some 5, 50⟩]).total_invested = 50 ∧
      (Investment.mk 10 [⟨"buy", "active", some 5, 50⟩]).total_gain_loss = 0 := by
  refine ⟨?_, ?_, ?_, ?_, ?_⟩
  · unfold Investment.current_value Investment.current_quantity
      spec_net_quantity
    rw [buy_sell_sum_eq]
  · unfold Investment.total_gain_loss Investment.total_invested
      spec_net_invested
    rw [buy_sell_sum_eq]
  · norm_num [Investment.current_value, Investment.current_quantity,
      List.filter_cons, buy_ne_sell, sell_ne_buy]
  · norm_num [Investment.total_invested, List.filter_cons, buy_ne_sell,
      sell_ne_buy]
  · norm_num [Investment.total_gain_loss, Investment.current_value,
      Investment.current_quantity, Investment.total_invested,
      List.filter_cons, buy_ne_sell, sell_ne_buy]

theorem addon_fold_cost (l : List UserAddon) (acc : ℚ × EffectiveLimits) :
    (l.foldl addon_step acc).1 = acc.1 + (l.map addon_cost_contrib).sum := by
  induction l generalizing acc with
  | nil => simp
  | cons ua t ih =>
    rw [List.foldl_cons, ih, List.map_cons, List.sum_cons]
    simp only [addon_step, addon_cost_contrib]
    by_cases hm : ua.addon.billing_cycle = "monthly"
    · rw [if_pos hm, if_pos hm]
      ring
    · rw [if_neg hm, if_neg hm]
      by_cases hy : ua.addon.billing_cycle = "yearly"
      · rw [if_pos hy, if_pos hy]
        ring
      · rw [if_neg hy, if_neg hy]
        ring

theorem addon_fold_ai (l : List UserAddon) (acc : ℚ × EffectiveLimits) :
    (l.foldl addon_step acc).2.ai_credits =
      acc.2.ai_credits +
        (l.map
          (fun ua => ua.addon.ai_credits_per_month * (ua.quantity : ℤ))).sum := by
  induction l generalizing acc with
  | nil => simp
  | cons ua t ih =>
    rw [List.foldl_cons, ih, List.map_cons, List.sum_cons]
    simp only [addon_step]
    ring

theorem addon_fold_transactions (l : List UserAddon)
    (acc : ℚ × EffectiveLimits) :
    (l.foldl addon_step acc).2.transactions =
      acc.2.transactions +
        (l.map
          (fun ua =>
            ua.addon.max_transactions_per_month * (ua.quantity : ℤ))).sum := by
  induction l generalizing acc with
  | nil => simp
  | cons ua t ih =>
    rw [List.foldl_cons, ih, List.map_cons, List.sum_cons]
    simp only [addon_step]
    ring

theorem addon_fold_accounts (l : List UserAddon) (acc : ℚ × EffectiveLimits) :
    (l.foldl addon_step acc).2.accounts =
      acc.2.accounts +
        (l.map (fun ua => ua.addon.max_accounts * (ua.quantity : ℤ))).sum := by
  induction l generalizing acc with
  | nil => simp
  | cons ua t ih =>
    rw [List.foldl_cons, ih, List.map_cons, List.sum_cons]
    simp only [addon_step]
    ring

theorem addon_fold_storage (l : List UserAddon) (acc : ℚ × EffectiveLimits) :
    (l.foldl addon_step acc).2.storage_gb =
      acc.2.storage_gb +
        (l.map (fun ua => ua.addon.storage_gb * (ua.quantity : ℚ))).sum := by
  induction l generalizing acc with
  | nil => simp
  | cons ua t ih =>
    rw [List.foldl_cons, ih, List.map_cons, List.sum_cons]
    simp only [addon_step]
    ring

/-- C7 counterexample: the claim formula charges every non-yearly active
addon price times quantity; the code only charges monthly and yearly cycles,
so an active one_time addon priced 12 contributes 12 under the claim and
nothing in the code. -/
theorem c7_counterexample :
    (calculate_totals ⟨0, "monthly", 0, 0, 0, 0⟩
        [⟨⟨12, "one_time", 0, 0, 0, 0⟩, 1, true⟩]).1 = 0 ∧
      claim_effective_cost ⟨0, "monthly", 0, 0, 0, 0⟩
        [⟨⟨12, "one_time", 0, 0, 0, 0⟩, 1, true⟩] = 12 ∧
      (calculate_totals ⟨0, "monthly", 0, 0, 0, 0⟩
        [⟨⟨12, "one_time", 0, 0, 0, 0⟩, 1, true⟩]).1 ≠
        claim_effective_cost ⟨0, "monthly", 0, 0, 0, 0⟩
          [⟨⟨12, "one_time", 0, 0, 0, 0⟩, 1, true⟩] := by
  have one_time_ne_monthly : ("one_time" : String) ≠ "monthly" := by decide
  have one_time_ne_yearly : ("one_time" : String) ≠ "yearly" := by decide
  refine ⟨?_, ?_, ?_⟩
  · norm_num [calculate_totals, addon_step, one_time_ne_monthly,
      one_time_ne_yearly]
  · norm_num [claim_effective_cost, one_time_ne_yearly]
  · norm_num [calculate_totals, addon_step, claim_effective_cost,
      one_time_ne_monthly, one_time_ne_yearly]

/-- C7 amended: the effective cost equals the base price plus, over active
addons, price times quantity for monthly billing and a twelfth of that for
yearly billing, with any other billing cycle (one_time) contributing
nothing; every effective limit equals the base limit plus the sum of the
addon value times quantity over active addons regardless of billing cycle. -/
theorem c7_amended (base : OptPlan) (addons : List UserAddon) :
    (calculate_totals base addons).1 =
      base.price +
        ((addons.filter (fun ua => ua.is_active)).map addon_cost_contrib).sum ∧
      (calculate_totals base addons).2.ai_credits =
        base.ai_credits_per_month +
          ((addons.filter (fun ua => ua.is_active)).map
            (fun ua => ua.addon.ai_credits_per_month * (ua.quantity : ℤ))).sum ∧
      (calculate_totals base addons).2.transactions =
        base.max_transactions_per_month +
          ((addons.filter (fun ua => ua.is_active)).map
            (fun ua =>
              ua.addon.max_transactions_per_month * (ua.quantity : ℤ))).sum ∧
      (calculate_totals base addons).2.accounts =
        base.max_accounts +
          ((addons.filter (fun ua => ua.is_active)).map
            (fun ua => ua.addon.max_accounts * (ua.quantity : ℤ))).sum ∧
      (calculate_totals base addons).2.storage_gb =
        base.storage_gb +
          ((addons.filter (fun ua => ua.is_active)).map
            (fun ua => ua.addon.storage_gb * (ua.quantity : ℚ))).sum := by
  unfold calculate_totals
  exact ⟨addon_fold_cost _ _, addon_fold_ai _ _, addon_fold_transactions _ _,
    addon_fold_accounts _ _, addon_fold_storage _ _⟩

/-- C8 counterexample: the claim says two entities of the same owner and
kind may both have an empty code without conflict; the unique_together
constraint rejects exactly that table. -/
theorem c8_counterexample :
    unique_together_ok
      [⟨1, "account", "checking", ""⟩, ⟨1, "account", "savings", ""⟩] = false := by
  decide

/-- C8 amended: the (owner, kind, code) triple is unique unconditionally -
a table satisfies the unique_together constraint iff no two of its rows
share the key triple, the empty code included. -/
theorem c8_amended (rows : List EntityRow) :
    unique_together_ok rows = true ↔
      rows.Pairwise (fun a b => entityKey a ≠ entityKey b) := by
  simp [unique_together_ok, List.Nodup, List.pairwise_map]
